import Mathlib

/-!
Shallow embedding of the rtsched-rs scheduler/clock façade.

Every definition below is translated from the Rust sources of the repository
(`src/lowlevel/clock.rs`, `src/lowlevel/sched.rs`, `src/clock.rs`,
`src/sched.rs`), on a 64-bit target (`c_long` = `i64`, `Map` = `u64`,
`size_of::<Map>()` = 8).  Machine integers are modelled as `Int` (signed) or
`Nat` (unsigned) with explicit range facts where overflow matters; Rust's
truncating `/` and `%` on signed integers are `Int.tdiv` and `Int.tmod`;
fallible Rust code returns `Except`/`Option`, and a Rust panic (an
out-of-bounds index or `Result::unwrap` on `Err`) is modelled as `Option.none`.
-/

namespace Rtsched

/-! ### TimeSpec (src/lowlevel/clock.rs) -/

/-- Kernel `struct timespec`: two signed word-sized fields (`c_long` = `i64`
on the 64-bit target), seconds then nanoseconds. -/
structure TimeSpec where
  tv_sec : Int
  tv_nsec : Int
deriving DecidableEq, Repr

/-- Translation of `TimeSpec::nanoseconds`: Rust `/` and `%` on `i64` truncate
toward zero, which is `Int.tdiv` / `Int.tmod`. -/
def TimeSpec.nanoseconds (nanoseconds : Int) : TimeSpec :=
  { tv_sec := nanoseconds.tdiv 1000000000
    tv_nsec := nanoseconds.tmod 1000000000 }

/-- Translation of `TimeSpec::as_nanoseconds`: `tv_sec * 1_000_000_000 + tv_nsec`. -/
def TimeSpec.as_nanoseconds (t : TimeSpec) : Int :=
  t.tv_sec * 1000000000 + t.tv_nsec

/-- Lower end of the `i64` domain. -/
def I64_MIN : Int := -(2 ^ 63)

/-- Upper end of the `i64` domain. -/
def I64_MAX : Int := 2 ^ 63 - 1

/-! ### Clock identifiers (src/lowlevel/clock.rs, src/clock.rs) -/

def CLOCK_REALTIME : Int := 0
def CLOCK_MONOTONIC : Int := 1
def CLOCK_PROCESS_CPUTIME_ID : Int := 2
def CLOCK_THREAD_CPUTIME_ID : Int := 3
def CLOCK_MONOTONIC_RAW : Int := 4
def CLOCK_REALTIME_COARSE : Int := 5
def CLOCK_MONOTONIC_COARSE : Int := 6
def CLOCK_BOOTTIME : Int := 7
def CLOCK_REALTIME_ALARM : Int := 8
def CLOCK_BOOTTIME_ALARM : Int := 9

/-- Retired placeholder identifier (`CLOCK_SGI_CYCLE`, marked `#[deprecated]`
in the source); never produced by `ClockId::as_raw`. -/
def CLOCK_SGI_CYCLE : Int := 10

def CLOCK_TAI : Int := 11

/-- The eleven clock-source variants of `ClockId` in src/clock.rs. -/
inductive ClockId where
  | ClockRealtime
  | ClockRealtimeAlarm
  | ClockRealtimeCoarse
  | ClockTai
  | ClockMonotonic
  | ClockMonotonicCoarse
  | ClockMonotonicRaw
  | ClockBoottime
  | ClockBoottimeAlarm
  | ClockProcessCputimeId
  | ClockThreadCputimeId
deriving DecidableEq, Repr, Fintype

/-- Translation of `ClockId::as_raw` (match arms in source order). -/
def ClockId.as_raw : ClockId → Int
  | .ClockRealtime => CLOCK_REALTIME
  | .ClockRealtimeAlarm => CLOCK_REALTIME_ALARM
  | .ClockRealtimeCoarse => CLOCK_REALTIME_COARSE
  | .ClockTai => CLOCK_TAI
  | .ClockMonotonic => CLOCK_MONOTONIC
  | .ClockMonotonicCoarse => CLOCK_MONOTONIC_COARSE
  | .ClockMonotonicRaw => CLOCK_MONOTONIC_RAW
  | .ClockBoottime => CLOCK_BOOTTIME
  | .ClockBoottimeAlarm => CLOCK_BOOTTIME_ALARM
  | .ClockProcessCputimeId => CLOCK_PROCESS_CPUTIME_ID
  | .ClockThreadCputimeId => CLOCK_THREAD_CPUTIME_ID

/-- Translation of `ClockId::from_raw`: a Rust match on integer constants,
rendered as the equivalent sequential comparison in source arm order; the
catch-all arm yields `None`. -/
def ClockId.from_raw (clockid : Int) : Option ClockId :=
  if clockid = CLOCK_REALTIME then some .ClockRealtime
  else if clockid = CLOCK_REALTIME_ALARM then some .ClockRealtimeAlarm
  else if clockid = CLOCK_REALTIME_COARSE then some .ClockRealtimeCoarse
  else if clockid = CLOCK_TAI then some .ClockTai
  else if clockid = CLOCK_MONOTONIC then some .ClockMonotonic
  else if clockid = CLOCK_MONOTONIC_COARSE then some .ClockMonotonicCoarse
  else if clockid = CLOCK_MONOTONIC_RAW then some .ClockMonotonicRaw
  else if clockid = CLOCK_BOOTTIME then some .ClockBoottime
  else if clockid = CLOCK_BOOTTIME_ALARM then some .ClockBoottimeAlarm
  else if clockid = CLOCK_PROCESS_CPUTIME_ID then some .ClockProcessCputimeId
  else if clockid = CLOCK_THREAD_CPUTIME_ID then some .ClockThreadCputimeId
  else none

/-! ### Scheduler policy (src/lowlevel/sched.rs, src/sched.rs) -/

def SCHED_NORMAL : Nat := 0
def SCHED_FIFO : Nat := 1
def SCHED_RR : Nat := 2
def SCHED_BATCH : Nat := 3
def SCHED_IDLE : Nat := 5
def SCHED_DEADLINE : Nat := 6
def SCHED_EXT : Nat := 7

/-- The seven scheduler-policy variants of `Policy` in src/sched.rs. -/
inductive Policy where
  | Normal
  | Batch
  | Idle
  | Fifo
  | RoundRobin
  | Deadline
  | Ext
deriving DecidableEq, Repr, Fintype

/-- Translation of `Policy::as_raw` (match arms in source order); the raw code
is a `u32`, modelled as `Nat`. -/
def Policy.as_raw : Policy → Nat
  | .Batch => SCHED_BATCH
  | .Deadline => SCHED_DEADLINE
  | .Fifo => SCHED_FIFO
  | .Idle => SCHED_IDLE
  | .Normal => SCHED_NORMAL
  | .RoundRobin => SCHED_RR
  | .Ext => SCHED_EXT

/-- Translation of `Policy::from_raw`: a Rust match on integer constants in
source arm order; the catch-all arm yields `Err(fmt::Error)`, whose payload is
a unit struct, modelled as `Except.error ()`. -/
def Policy.from_raw (raw : Nat) : Except Unit Policy :=
  if raw = SCHED_NORMAL then .ok .Normal
  else if raw = SCHED_FIFO then .ok .Fifo
  else if raw = SCHED_RR then .ok .RoundRobin
  else if raw = SCHED_BATCH then .ok .Batch
  else if raw = SCHED_IDLE then .ok .Idle
  else if raw = SCHED_DEADLINE then .ok .Deadline
  else if raw = SCHED_EXT then .ok .Ext
  else .error ()

deriving instance DecidableEq for Except

/-! ### Scheduling flags (src/sched.rs, `bitflags!`) -/

def SCHED_FLAG_RESET_ON_FORK : Nat := 0x01
def SCHED_FLAG_RECLAIM : Nat := 0x02
def SCHED_FLAG_DL_OVERRUN : Nat := 0x04
def SCHED_FLAG_KEEP_PARAMS : Nat := 0x10
def SCHED_FLAG_UTIL_CLAMP_MIN : Nat := 0x20
def SCHED_FLAG_UTIL_CLAMP_MAX : Nat := 0x40

/-- A `SchedFlags` value is its `c_short` bit pattern; only the six named bits
below ever occur in a constructed value. -/
abbrev SchedFlags := Nat

/-- Translation of `SchedFlags::empty()`. -/
def SchedFlags.empty : SchedFlags := 0

/-- The union of all flag bits known to the `bitflags!` declaration. -/
def SchedFlags.allBits : Nat :=
  SCHED_FLAG_RESET_ON_FORK ||| SCHED_FLAG_RECLAIM ||| SCHED_FLAG_DL_OVERRUN |||
    SCHED_FLAG_KEEP_PARAMS ||| SCHED_FLAG_UTIL_CLAMP_MIN ||| SCHED_FLAG_UTIL_CLAMP_MAX

/-- Translation of `SchedFlags::from_bits_truncate(bits as i16)`: unknown bits
are masked off.  The `u64 -> i16` cast in the caller keeps only the low 16
bits, which the mask (a value below `2^7`) absorbs. -/
def SchedFlags.from_bits_truncate (bits : Nat) : SchedFlags :=
  bits &&& SchedFlags.allBits

/-! ### Kernel attribute record and typed attributes (src/sched.rs) -/

/-- OS error number; the only value this layer produces locally. -/
abbrev Errno := Nat

/-- The `EINVAL` error code (`Errno::EINVAL`). -/
def EINVAL : Errno := 22

/-- The kernel `struct sched_attr` of src/lowlevel/sched.rs: field order fixed,
`u32`/`u64` fields as `Nat`, the `i32` nice field as `Int`. -/
structure SchedAttr where
  size : Nat
  sched_policy : Nat
  sched_flags : Nat
  sched_nice : Int
  sched_priority : Nat
  sched_runtime : Nat
  sched_deadline : Nat
  sched_period : Nat
  sched_util_min : Nat
  sched_util_max : Nat
deriving DecidableEq, Repr

/-- Value of `mem::size_of::<SchedAttr>()` on the 64-bit target:
4+4+8+4+4+8+8+8+4+4 bytes, no padding. -/
def schedAttrSize : Nat := 56

/-- The typed `Attributes` aggregate of src/sched.rs. -/
structure Attributes where
  policy : Policy
  flags : SchedFlags
  nice : Int
  priority : Nat
  runtime_ns : Nat
  deadline_ns : Nat
  period_ns : Nat
  sched_util_min : Nat
  sched_util_max : Nat
deriving DecidableEq, Repr

/-- Encoding step of `set_attr`: the `SchedAttr` record filled from an
`Attributes` value and handed to the `sched_setattr` syscall (the syscall
itself is the external transport and is not modelled). -/
def set_attr_request (attr : Attributes) : SchedAttr :=
  { size := schedAttrSize
    sched_policy := attr.policy.as_raw
    sched_flags := attr.flags
    sched_nice := attr.nice
    sched_priority := attr.priority
    sched_runtime := attr.runtime_ns
    sched_deadline := attr.deadline_ns
    sched_period := attr.period_ns
    sched_util_min := attr.sched_util_min
    sched_util_max := attr.sched_util_max }

/-- Rust `Result::unwrap`: the `Ok` payload, or a panic on `Err`; the panic
(an abort, not an error value) is modelled as `none`. -/
def unwrapOrPanic {α : Type} : Except Unit α → Option α
  | .ok a => some a
  | .error _ => none

/-- Decode step of `get_attr` in src/sched.rs, applied to the kernel record
returned by `sched_getattr`: the policy decode result is taken with
`Result::unwrap` (so an unrecognized code panics, `none`), the flags with
`SchedFlags::from_bits_truncate(sched_flags as i16)`. -/
def get_attr_decode (attr : SchedAttr) : Option Attributes :=
  (unwrapOrPanic (Policy.from_raw attr.sched_policy)).map fun pol =>
    { policy := pol
      flags := SchedFlags.from_bits_truncate attr.sched_flags
      nice := attr.sched_nice
      priority := attr.sched_priority
      deadline_ns := attr.sched_deadline
      period_ns := attr.sched_period
      runtime_ns := attr.sched_runtime
      sched_util_min := attr.sched_util_min
      sched_util_max := attr.sched_util_max }

/-! ### Convenience setters (src/sched.rs)

Each setter builds an `Attributes` struct literal and passes it to `set_attr`;
the definitions below are those struct literals (the `_attributes` layer), and
`set_deadline` additionally carries the client-side validation that runs
before any syscall. -/

/-- The `Attributes` literal built by `set_other(pid, nice)`. -/
def set_other_attributes (nice : Int) : Attributes :=
  { policy := .Normal
    nice := nice
    deadline_ns := 0
    period_ns := 0
    flags := SchedFlags.empty
    priority := 0
    runtime_ns := 0
    sched_util_min := 0
    sched_util_max := 0 }

/-- The `Attributes` literal built by `set_batch(pid, nice)`. -/
def set_batch_attributes (nice : Int) : Attributes :=
  { policy := .Batch
    nice := nice
    deadline_ns := 0
    period_ns := 0
    flags := SchedFlags.empty
    priority := 0
    runtime_ns := 0
    sched_util_min := 0
    sched_util_max := 0 }

/-- The `Attributes` literal built by `set_idle(pid)`. -/
def set_idle_attributes : Attributes :=
  { policy := .Idle
    nice := 0
    deadline_ns := 0
    period_ns := 0
    flags := SchedFlags.empty
    priority := 0
    runtime_ns := 0
    sched_util_min := 0
    sched_util_max := 0 }

/-- The `Attributes` literal built by `set_fifo(pid, priority)`. -/
def set_fifo_attributes (priority : Nat) : Attributes :=
  { policy := .Fifo
    nice := 0
    deadline_ns := 0
    period_ns := 0
    flags := SchedFlags.empty
    priority := priority
    runtime_ns := 0
    sched_util_min := 0
    sched_util_max := 0 }

/-- The `Attributes` literal built by `set_rr(pid, priority)`. -/
def set_rr_attributes (priority : Nat) : Attributes :=
  { policy := .RoundRobin
    nice := 0
    deadline_ns := 0
    period_ns := 0
    flags := SchedFlags.empty
    priority := priority
    runtime_ns := 0
    sched_util_min := 0
    sched_util_max := 0 }

/-- Validation and attribute construction of
`set_deadline(pid, deadline_ns, period_ns, runtime_ns)`: the two `if` guards
from the source (ordering, then the 1024-ns floors), each returning
`Err(Errno::EINVAL)` before any syscall; on success the `Attributes` literal
the source passes to `set_attr`. -/
def set_deadline_attributes (deadline_ns period_ns runtime_ns : Nat) :
    Except Errno Attributes :=
  if ¬(runtime_ns ≤ deadline_ns ∧ deadline_ns ≤ period_ns) then
    Except.error EINVAL
  else if runtime_ns < 1024 ∨ deadline_ns < 1024 ∨ period_ns < 1024 then
    Except.error EINVAL
  else
    Except.ok
      { policy := .Deadline
        nice := 0
        deadline_ns := deadline_ns
        period_ns := period_ns
        flags := SchedFlags.empty
        priority := 0
        runtime_ns := runtime_ns
        sched_util_min := 0
        sched_util_max := 0 }

/-- Full client-side behavior of `set_deadline`: `Except.error e` is a local
failure with no syscall issued; `Except.ok rec` is the encoded kernel record
handed to the `sched_setattr` syscall. -/
def set_deadline (deadline_ns period_ns runtime_ns : Nat) :
    Except Errno SchedAttr :=
  (set_deadline_attributes deadline_ns period_ns runtime_ns).map set_attr_request

/-! ### CpuSet (src/lowlevel/sched.rs, 64-bit target) -/

/-- Word count of the backing array (`CPU_SET_SIZE` for
`not(target_pointer_width = "32")`). -/
def CPU_SET_SIZE : Nat := 16

/-- Value of `size_of::<Map>()` with `Map = u64`: 8 (bytes).  The source
divides the core index by this byte count. -/
def mapSizeOf : Nat := 8

/-- Value of `Map::MAX` (`u64::MAX`). -/
def mapMax : Nat := 2 ^ 64 - 1

/-- The CPU affinity mask: a `[Map; CPU_SET_SIZE]` backing array of `u64`
words, each word a `Nat` below `2^64`. -/
structure CpuSet where
  bits : List Nat
deriving DecidableEq, Repr

/-- Translation of `CpuSet::empty()`. -/
def CpuSet.empty : CpuSet :=
  { bits := List.replicate CPU_SET_SIZE 0 }

/-- Translation of `CpuSet::full()`. -/
def CpuSet.full : CpuSet :=
  { bits := List.replicate CPU_SET_SIZE mapMax }

/-- Translation of `CpuSet::set`: `idx = core / size_of::<Map>()`,
`bit = core % size_of::<Map>()`, then `bits[idx] |= 1 << bit`.  A Rust index
out of the array bounds panics, modelled as `none`. -/
def CpuSet.set (cs : CpuSet) (core : Nat) : Option CpuSet :=
  let idx := core / mapSizeOf
  let bit := core % mapSizeOf
  if h : idx < cs.bits.length then
    some { bits := cs.bits.set idx (cs.bits.get ⟨idx, h⟩ ||| (1 <<< bit)) }
  else
    none

/-- Translation of `CpuSet::clear`: same index arithmetic, then
`bits[idx] &= 1 << bit` (as written in the source: a plain `&` with the
single-bit mask, with no negation). -/
def CpuSet.clear (cs : CpuSet) (core : Nat) : Option CpuSet :=
  let idx := core / mapSizeOf
  let bit := core % mapSizeOf
  if h : idx < cs.bits.length then
    some { bits := cs.bits.set idx (cs.bits.get ⟨idx, h⟩ &&& (1 <<< bit)) }
  else
    none

/-- Translation of `CpuSet::is_set`: same index arithmetic, then
`bits[idx] & (1 << bit) > 0`. -/
def CpuSet.is_set (cs : CpuSet) (core : Nat) : Option Bool :=
  let idx := core / mapSizeOf
  let bit := core % mapSizeOf
  if h : idx < cs.bits.length then
    some (decide (0 < (cs.bits.get ⟨idx, h⟩ &&& (1 <<< bit))))
  else
    none

/-- Modelled from the spec: how the kernel reads the raw affinity buffer at
the syscall boundary — flat bit position `i` of the mask is bit `i % 64` of
64-bit word `i / 64`, index 0 being the lowest core.  This is the comparison
target for the raw-layout-compatibility claim, not a translation of repository
code. -/
def kernelLayoutBit (cs : CpuSet) (i : Nat) : Bool :=
  Nat.testBit (cs.bits.getD (i / 64) 0) (i % 64)

/-! ## Helper lemmas -/

/-- Negating the dividend negates a truncating remainder. -/
theorem tmod_neg_left (a b : Int) : (-a).tmod b = -(a.tmod b) := by
  rw [Int.tmod_def, Int.tmod_def, Int.neg_tdiv]; ring

/-! ## Claims -/

/-- C1: the claim states that `CpuSet::clear(i)` clears bit `i` and preserves
every other bit, so `CpuSet::full().clear(i).is_set(i) == false`.  The code
instead computes `bits[idx] &= 1 << bit` (no negation), which KEEPS bit `i`
and zeroes the other bits of that word: `full().clear(0).is_set(0)` is `true`,
and bit 1 — which the claim says is preserved from the full mask — reads
`false`. -/
theorem cpuset_clear_keeps_the_cleared_bit :
    ((CpuSet.full.clear 0).bind fun c => c.is_set 0) = some true ∧
    ((CpuSet.full.clear 0).bind fun c => c.is_set 1) = some false := by decide

/-- C2: the claim states that `get_attr` surfaces an invalid-policy decode
error for an unrecognized kernel policy code instead of panicking.  The code
calls `Policy::from_raw(attr.sched_policy).unwrap()`: on the retired code 4
the decode is `Err`, and `unwrap` aborts (modelled as `none`) rather than
returning an error value to the caller. -/
theorem get_attr_unknown_policy_panics :
    Policy.from_raw 4 = Except.error () ∧
    get_attr_decode (SchedAttr.mk 56 4 0 0 0 0 0 0 0 0) = none := by decide

/-- C3: the claim states that for every `core_index` below the 1024-bit
capacity the backing-array access of `set`/`clear`/`is_set` is in range.  The
code divides by `size_of::<Map>()` = 8 bytes instead of 64 bits, so
`core_index = 128` (well below the capacity `CPU_SET_SIZE * 64 = 1024`)
yields word index 16, out of bounds of the 16-element array: all three
operations hit the out-of-bounds branch (a Rust panic, modelled `none`). -/
theorem cpuset_ops_out_of_bounds_within_capacity :
    128 < CPU_SET_SIZE * 64 ∧
    CpuSet.set CpuSet.empty 128 = none ∧
    CpuSet.clear CpuSet.empty 128 = none ∧
    CpuSet.is_set CpuSet.empty 128 = none := by decide

/-- C4: the claim states that `CpuSet::empty().set(i)` sets flat bit position
`i` of the raw buffer in the kernel `cpu_set_t` layout (bit `i % 64` of word
`i / 64`).  Because the code divides by 8 (bytes) instead of 64 (bits),
`set(8)` leaves kernel bit 8 clear and instead sets kernel bit 64. -/
theorem cpuset_set_kernel_layout_mismatch :
    (CpuSet.empty.set 8).map (fun c => kernelLayoutBit c 8) = some false ∧
    (CpuSet.empty.set 8).map (fun c => kernelLayoutBit c 64) = some true := by decide

/-- C5: `set_deadline(pid, deadline_ns, period_ns, runtime_ns)` fails locally
with `EINVAL` and issues no syscall exactly when
`runtime_ns ≤ deadline_ns ≤ period_ns` with all three at least 1024 fails;
otherwise it encodes a Deadline-policy record carrying exactly those three
parameters and issues the set call. -/
theorem set_deadline_validation (d p r : Nat) :
    set_deadline d p r =
      if r ≤ d ∧ d ≤ p ∧ 1024 ≤ r ∧ 1024 ≤ d ∧ 1024 ≤ p then
        Except.ok
          { size := schedAttrSize
            sched_policy := SCHED_DEADLINE
            sched_flags := SchedFlags.empty
            sched_nice := 0
            sched_priority := 0
            sched_runtime := r
            sched_deadline := d
            sched_period := p
            sched_util_min := 0
            sched_util_max := 0 }
      else Except.error EINVAL := by
  unfold set_deadline set_deadline_attributes
  split_ifs <;> first | rfl | omega

/-- C6: `Policy::from_raw` is a left inverse of `Policy::as_raw`; `as_raw`
maps the seven variants bijectively onto the kernel codes
`{0, 1, 2, 3, 5, 6, 7}`; every raw code outside that set — the retired code 4
included — decodes to an error. -/
theorem policy_raw_roundtrip :
    (∀ p : Policy, Policy.from_raw (Policy.as_raw p) = Except.ok p) ∧
    (∀ raw ∈ ([0, 1, 2, 3, 5, 6, 7] : List Nat),
      ∃ p : Policy, Policy.as_raw p = raw ∧ Policy.from_raw raw = Except.ok p) ∧
    (∀ raw : Nat, raw ∉ ([0, 1, 2, 3, 5, 6, 7] : List Nat) →
      Policy.from_raw raw = Except.error ()) := by
  refine ⟨by decide, by decide, ?_⟩
  intro raw h
  simp only [List.mem_cons, List.not_mem_nil, or_false, not_or] at h
  obtain ⟨h0, h1, h2, h3, h5, h6, h7⟩ := h
  simp [Policy.from_raw, SCHED_NORMAL, SCHED_FIFO, SCHED_RR, SCHED_BATCH, SCHED_IDLE,
    SCHED_DEADLINE, SCHED_EXT, h0, h1, h2, h3, h5, h6, h7]

/-- C6 witness: the retired code 4 and the out-of-range code 8 both decode to
an error. -/
theorem policy_raw_roundtrip_witness :
    Policy.from_raw 4 = Except.error () ∧ Policy.from_raw 8 = Except.error () :=
  ⟨policy_raw_roundtrip.2.2 4 (by decide), policy_raw_roundtrip.2.2 8 (by decide)⟩

/-- C7: over the whole `i64` domain, `TimeSpec::nanoseconds(n).as_nanoseconds()`
returns `n`, and the reconstruction's intermediate product
`tv_sec * 1_000_000_000` stays inside the `i64` domain (no overflow). -/
theorem timespec_nanoseconds_roundtrip (n : Int) (h1 : I64_MIN ≤ n) (h2 : n ≤ I64_MAX) :
    (TimeSpec.nanoseconds n).as_nanoseconds = n ∧
    I64_MIN ≤ (TimeSpec.nanoseconds n).tv_sec * 1000000000 ∧
    (TimeSpec.nanoseconds n).tv_sec * 1000000000 ≤ I64_MAX := by
  have hproj_s : (TimeSpec.nanoseconds n).tv_sec = n.tdiv 1000000000 := rfl
  have hsum : n.tdiv 1000000000 * 1000000000 + n.tmod 1000000000 = n :=
    Int.tdiv_add_tmod' n 1000000000
  norm_num [I64_MIN, I64_MAX] at h1 h2 ⊢
  refine ⟨hsum, ?_, ?_⟩ <;>
  · rw [hproj_s]
    rcases le_or_lt 0 n with hn | hn
    · have hm0 : 0 ≤ n.tmod 1000000000 := Int.tmod_nonneg 1000000000 hn
      have hm1 : n.tmod 1000000000 < 1000000000 := Int.tmod_lt_of_pos n (by norm_num)
      omega
    · have e : n.tmod 1000000000 = -((-n).tmod 1000000000) := by
        rw [← tmod_neg_left]; simp
      have hm0 : 0 ≤ (-n).tmod 1000000000 := Int.tmod_nonneg 1000000000 (by omega)
      have hm1 : (-n).tmod 1000000000 < 1000000000 := Int.tmod_lt_of_pos (-n) (by norm_num)
      omega

/-- C7 witness: the round trip and the overflow bounds at `n = -1999999999`. -/
theorem timespec_nanoseconds_roundtrip_witness :
    (TimeSpec.nanoseconds (-1999999999)).as_nanoseconds = -1999999999 ∧
    I64_MIN ≤ (TimeSpec.nanoseconds (-1999999999)).tv_sec * 1000000000 ∧
    (TimeSpec.nanoseconds (-1999999999)).tv_sec * 1000000000 ≤ I64_MAX :=
  timespec_nanoseconds_roundtrip (-1999999999) (by decide) (by decide)

/-- C8: `TimeSpec::nanoseconds(n)` decomposes `n` by truncating
(round-toward-zero) division — `tv_sec = n / 1e9`, `tv_nsec = n % 1e9` — so
both fields follow the sign of `n` and negative inputs are not normalized;
in particular `nanoseconds(1_999_999_999) = (1, 999_999_999)` and
`nanoseconds(-1_999_999_999) = (-1, -999_999_999)`. -/
theorem timespec_truncating_decomposition :
    (∀ n : Int, (TimeSpec.nanoseconds n).tv_sec = n.tdiv 1000000000 ∧
      (TimeSpec.nanoseconds n).tv_nsec = n.tmod 1000000000) ∧
    TimeSpec.nanoseconds 1999999999 = TimeSpec.mk 1 999999999 ∧
    TimeSpec.nanoseconds (-1999999999) = TimeSpec.mk (-1) (-999999999) ∧
    (∀ n : Int, 0 ≤ n →
      0 ≤ (TimeSpec.nanoseconds n).tv_sec ∧ 0 ≤ (TimeSpec.nanoseconds n).tv_nsec) ∧
    (∀ n : Int, n ≤ 0 →
      (TimeSpec.nanoseconds n).tv_sec ≤ 0 ∧ (TimeSpec.nanoseconds n).tv_nsec ≤ 0) := by
  refine ⟨fun n => ⟨rfl, rfl⟩, by decide, by decide, ?_, ?_⟩
  · intro n hn
    exact ⟨Int.tdiv_nonneg hn (by norm_num), Int.tmod_nonneg 1000000000 hn⟩
  · intro n hn
    have hd : (TimeSpec.nanoseconds n).tv_sec = -((-n).tdiv 1000000000) := by
      show n.tdiv 1000000000 = -((-n).tdiv 1000000000)
      rw [Int.neg_tdiv]; ring
    have hm : (TimeSpec.nanoseconds n).tv_nsec = -((-n).tmod 1000000000) := by
      show n.tmod 1000000000 = -((-n).tmod 1000000000)
      rw [tmod_neg_left]; ring
    have hb1 : 0 ≤ (-n).tdiv 1000000000 := Int.tdiv_nonneg (by omega) (by norm_num)
    have hb2 : 0 ≤ (-n).tmod 1000000000 := Int.tmod_nonneg 1000000000 (by omega)
    omega

/-- C8 witness: the sign-following parts applied at the two example inputs. -/
theorem timespec_truncating_decomposition_witness :
    (0 ≤ (TimeSpec.nanoseconds 1999999999).tv_sec ∧
      0 ≤ (TimeSpec.nanoseconds 1999999999).tv_nsec) ∧
    ((TimeSpec.nanoseconds (-1999999999)).tv_sec ≤ 0 ∧
      (TimeSpec.nanoseconds (-1999999999)).tv_nsec ≤ 0) :=
  ⟨timespec_truncating_decomposition.2.2.2.1 1999999999 (by norm_num),
    timespec_truncating_decomposition.2.2.2.2 (-1999999999) (by norm_num)⟩

/-- C9: `ClockId::from_raw` is a left inverse of `ClockId::as_raw`; `as_raw`
maps the eleven variants bijectively onto `{0,…,9, 11}`; every raw value
outside that set — the retired identifier 10 included — decodes to `None`
(no match), not an error. -/
theorem clockid_raw_roundtrip :
    (∀ c : ClockId, ClockId.from_raw (ClockId.as_raw c) = some c) ∧
    (∀ raw ∈ ([0, 1, 2, 3, 4, 5, 6, 7, 8, 9, 11] : List Int),
      ∃ c : ClockId, ClockId.as_raw c = raw ∧ ClockId.from_raw raw = some c) ∧
    (∀ raw : Int, raw ∉ ([0, 1, 2, 3, 4, 5, 6, 7, 8, 9, 11] : List Int) →
      ClockId.from_raw raw = none) := by
  refine ⟨by decide, by decide, ?_⟩
  intro raw h
  simp only [List.mem_cons, List.not_mem_nil, or_false, not_or] at h
  obtain ⟨h0, h1, h2, h3, h4, h5, h6, h7, h8, h9, h11⟩ := h
  simp [ClockId.from_raw, CLOCK_REALTIME, CLOCK_MONOTONIC, CLOCK_PROCESS_CPUTIME_ID,
    CLOCK_THREAD_CPUTIME_ID, CLOCK_MONOTONIC_RAW, CLOCK_REALTIME_COARSE,
    CLOCK_MONOTONIC_COARSE, CLOCK_BOOTTIME, CLOCK_REALTIME_ALARM, CLOCK_BOOTTIME_ALARM,
    CLOCK_TAI, h0, h1, h2, h3, h4, h5, h6, h7, h8, h9, h11]

/-- C9 witness: the permanently retired identifier 10 and the out-of-range
value -1 both decode to `None`. -/
theorem clockid_raw_roundtrip_witness :
    ClockId.from_raw 10 = none ∧ ClockId.from_raw (-1) = none :=
  ⟨clockid_raw_roundtrip.2.2 10 (by decide), clockid_raw_roundtrip.2.2 (-1) (by decide)⟩

/-- C10: every convenience setter builds its `Attributes` with empty flags and
zeros in every field not tied to its policy: priority 0 except for
`set_fifo`/`set_rr`, nice 0 except for `set_other`/`set_batch`,
runtime/deadline/period 0 except for `set_deadline`, and utilization clamps
always 0.  Field order of `Attributes.mk`: policy, flags, nice, priority,
runtime_ns, deadline_ns, period_ns, sched_util_min, sched_util_max. -/
theorem convenience_setters_zero_unrelated_fields (nice : Int) (priority : Nat)
    (d p r : Nat) (hrd : r ≤ d) (hdp : d ≤ p) (hr : 1024 ≤ r) (hd : 1024 ≤ d)
    (hp : 1024 ≤ p) :
    set_other_attributes nice =
      Attributes.mk .Normal SchedFlags.empty nice 0 0 0 0 0 0 ∧
    set_batch_attributes nice =
      Attributes.mk .Batch SchedFlags.empty nice 0 0 0 0 0 0 ∧
    set_idle_attributes =
      Attributes.mk .Idle SchedFlags.empty 0 0 0 0 0 0 0 ∧
    set_fifo_attributes priority =
      Attributes.mk .Fifo SchedFlags.empty 0 priority 0 0 0 0 0 ∧
    set_rr_attributes priority =
      Attributes.mk .RoundRobin SchedFlags.empty 0 priority 0 0 0 0 0 ∧
    set_deadline_attributes d p r =
      Except.ok (Attributes.mk .Deadline SchedFlags.empty 0 0 r d p 0 0) := by
  refine ⟨rfl, rfl, rfl, rfl, rfl, ?_⟩
  unfold set_deadline_attributes
  split_ifs <;> first | rfl | omega

/-- C10 witness: the setter records at nice -20, priority 99 and the
deadline parameters of the spec's round-trip example. -/
theorem convenience_setters_zero_unrelated_fields_witness :
    set_other_attributes (-20) =
      Attributes.mk .Normal SchedFlags.empty (-20) 0 0 0 0 0 0 ∧
    set_batch_attributes (-20) =
      Attributes.mk .Batch SchedFlags.empty (-20) 0 0 0 0 0 0 ∧
    set_idle_attributes =
      Attributes.mk .Idle SchedFlags.empty 0 0 0 0 0 0 0 ∧
    set_fifo_attributes 99 =
      Attributes.mk .Fifo SchedFlags.empty 0 99 0 0 0 0 0 ∧
    set_rr_attributes 99 =
      Attributes.mk .RoundRobin SchedFlags.empty 0 99 0 0 0 0 0 ∧
    set_deadline_attributes 1000000 1000000 50000 =
      Except.ok (Attributes.mk .Deadline SchedFlags.empty 0 0 50000 1000000 1000000 0 0) :=
  convenience_setters_zero_unrelated_fields (-20) 99 1000000 1000000 50000
    (by decide) (by decide) (by decide) (by decide) (by decide)

end Rtsched
